import Mathlib

/-!
Verification of the CampusCompanion python-ai-service against its
specification.  The Python sources are shallowly embedded: text is
modelled as `List Char` (Python `str`), dictionaries as structures with
`Option` fields for keys that may be absent or `None`, timestamps as
integers (seconds), and Python exceptions as `Except`/`Option` results.
-/

namespace Campus

/-- Text is modelled as a list of characters; `lit` injects a Lean string
literal, mirroring a Python string literal. -/
abbrev Str := List Char

def lit (s : String) : Str := s.data

/-- Embedding of Python `str.lower()` (character-wise lowercasing). -/
def lower (s : Str) : Str := s.map Char.toLower

/-- Embedding of the Python substring test `needle in haystack`. -/
def containsSubstr (needle : Str) : Str → Bool
  | [] => needle.isPrefixOf []
  | c :: rest => needle.isPrefixOf (c :: rest) || containsSubstr needle rest

theorem containsSubstr_iff (needle hay : Str) :
    containsSubstr needle hay = true ↔ needle <:+: hay := by
  induction hay with
  | nil =>
      simp [containsSubstr, List.isPrefixOf_iff_prefix]
  | cons c rest ih =>
      simp [containsSubstr, List.isPrefixOf_iff_prefix, ih,
        List.infix_cons_iff]

/-- The fixed action-intent vocabulary of
`IntelligentChatbot._detect_action_intent`. -/
def action_keywords : List Str :=
  [lit "create", lit "generate", lit "make", lit "show me", lit "find",
   lit "search", lit "enroll", lit "register", lit "add", lit "schedule",
   lit "plan", lit "list my", lit "what are my", lit "get my"]

/-- Embedding of `IntelligentChatbot._detect_action_intent`: lowercase the
message and test each keyword for substring containment. -/
def detect_action_intent (message : Str) : Bool :=
  action_keywords.any (fun keyword => containsSubstr keyword (lower message))

/-- C2: the action-intent classifier returns true exactly when the
lower-cased message contains at least one of the fixed action keywords as
a substring. -/
theorem detect_action_intent_iff (message : Str) :
    detect_action_intent message = true ↔
      ∃ keyword ∈ action_keywords, keyword <:+: lower message := by
  simp [detect_action_intent, List.any_eq_true, containsSubstr_iff]

/-- A single entry of an `actions_performed` list (Python dict with a
`type` and `success` key plus optional auxiliary keys). -/
structure ActionEntry where
  type : Str
  success : Bool
  message : Option Str
  plan_id : Option Str
  count : Option Nat
deriving DecidableEq

/-- The projection of an agent response dict that the router reads: only
the `response` and `actions_performed` keys, each possibly absent. -/
structure RouteResult where
  response : Option Str
  actions_performed : Option (List ActionEntry)
deriving DecidableEq

/-- Helper shared by the routing checks: does the lower-cased message
contain any keyword of the vocabulary as a substring? -/
def mentions_any (keywords : List Str) (message : Str) : Bool :=
  keywords.any (fun w => containsSubstr w (lower message))

theorem mentions_any_iff (keywords : List Str) (message : Str) :
    mentions_any keywords message = true ↔
      ∃ w ∈ keywords, w <:+: lower message := by
  simp [mentions_any, List.any_eq_true, containsSubstr_iff]

/-- The study-planner vocabulary of `IntelligentChatbot._route_to_agent`. -/
def study_keywords : List Str :=
  [lit "study plan", lit "learning plan", lit "schedule"]

/-- The assignment-manager vocabulary of
`IntelligentChatbot._route_to_agent`. -/
def assignment_keywords : List Str :=
  [lit "assignment", lit "homework", lit "task"]

/-- The three outcomes of `IntelligentChatbot._route_to_agent`. -/
inductive RouteTarget where
  | studyPlanner
  | assignmentManager
  | generic
deriving DecidableEq

/-- Which branch of `IntelligentChatbot._route_to_agent` fires, following
the source's if/elif/else chain. -/
def route_to_agent (message : Str) : RouteTarget :=
  if mentions_any study_keywords message then RouteTarget.studyPlanner
  else if mentions_any assignment_keywords message then
    RouteTarget.assignmentManager
  else RouteTarget.generic

/-- The default reply dict of `IntelligentChatbot._route_to_agent` when no
vocabulary matches. -/
def route_default_result : RouteResult :=
  { response :=
      some (lit "I can help you with that! Could you provide more details?")
    actions_performed := some [] }

/-- Embedding of `IntelligentChatbot._route_to_agent`: the results of the
two agents' `process` calls are passed in, since those calls depend on
external collaborators. -/
def route_to_agent_result (message : Str)
    (plannerResult assignResult : RouteResult) : RouteResult :=
  if mentions_any study_keywords message then plannerResult
  else if mentions_any assignment_keywords message then assignResult
  else route_default_result

/-- C3 (amended): routing follows the source's priority chain — the
study/learning/schedule vocabulary is checked first, the
assignment/homework/task vocabulary only when the first check fails, and
when neither matches the router returns the generic placeholder reply
with an empty actions_performed list. -/
theorem route_to_agent_spec (message : Str)
    (plannerResult assignResult : RouteResult) :
    (mentions_any study_keywords message = true →
      route_to_agent message = RouteTarget.studyPlanner ∧
      route_to_agent_result message plannerResult assignResult =
        plannerResult) ∧
    (mentions_any study_keywords message = false →
      mentions_any assignment_keywords message = true →
      route_to_agent message = RouteTarget.assignmentManager ∧
      route_to_agent_result message plannerResult assignResult =
        assignResult) ∧
    (mentions_any study_keywords message = false →
      mentions_any assignment_keywords message = false →
      route_to_agent message = RouteTarget.generic ∧
      route_to_agent_result message plannerResult assignResult =
        { response := some
            (lit "I can help you with that! Could you provide more details?")
          actions_performed := some [] }) := by
  refine ⟨fun h => ?_, fun h1 h2 => ?_, fun h1 h2 => ?_⟩ <;>
    simp [route_to_agent, route_to_agent_result, route_default_result, *]

/-- C3 witness: a message mentioning neither vocabulary is answered by
the generic placeholder reply with an empty actions list. -/
theorem route_to_agent_spec_witness :
    route_to_agent (lit "hello") = RouteTarget.generic ∧
    route_to_agent_result (lit "hello") route_default_result
        route_default_result =
      { response := some
          (lit "I can help you with that! Could you provide more details?")
        actions_performed := some [] } :=
  (route_to_agent_spec (lit "hello") route_default_result
      route_default_result).2.2 (by decide) (by decide)

/-- C3 counterexample: the message "schedule homework" contains the
assignment keyword "homework", yet it is not dispatched to the
AssignmentManager — the planner vocabulary ("schedule") matches first. -/
theorem route_to_agent_c3_counterexample :
    containsSubstr (lit "homework") (lower (lit "schedule homework")) =
        true ∧
    route_to_agent (lit "schedule homework") ≠
      RouteTarget.assignmentManager := by
  decide

/-- Decimal value of a digit string (helper for the Python `int()`
embedding). -/
def digitsVal (cs : Str) : Nat :=
  cs.foldl (fun acc c => acc * 10 + (c.toNat - 48)) 0

/-- Embedding of Python `int(s)` on an already-stripped token: optional
sign followed by decimal digits; `none` models the `ValueError`. -/
def pyInt : Str → Option Int
  | [] => none
  | '-' :: rest =>
      if !rest.isEmpty && rest.all Char.isDigit then
        some (-(digitsVal rest : Int))
      else none
  | '+' :: rest =>
      if !rest.isEmpty && rest.all Char.isDigit then
        some ((digitsVal rest : Int))
      else none
  | s =>
      if s.all Char.isDigit then some ((digitsVal s : Int)) else none

/-- Embedding of Python `s.split()[0]`: first maximal run of
non-whitespace characters; `none` models the `IndexError` on an empty
split. -/
def firstToken (s : Str) : Option Str :=
  let t := s.dropWhile Char.isWhitespace
  if t.isEmpty then none else some (t.takeWhile (fun c => !c.isWhitespace))

/-- Embedding of `int(analysis_duration.split()[0])` in
`StudentStudyPlannerAgent._create_study_plan`. -/
def parse_duration_weeks (s : Str) : Option Int :=
  (firstToken s).bind pyInt

/-- The analysis dict produced by
`StudentStudyPlannerAgent._analyze_study_goal` (keys may be absent when
the AI-produced JSON omits them). -/
structure Analysis where
  goal_type : Option Str
  difficulty_level : Option Str
  estimated_duration : Option Str
  key_topics : Option (List Str)
  prerequisites : Option (List Str)
  recommendations : Option (List Str)
deriving DecidableEq

/-- The fixed fallback analysis dict of
`StudentStudyPlannerAgent._analyze_study_goal`'s `except` branch. -/
def fallback_analysis (query : Str) : Analysis :=
  { goal_type := some (lit "general_study")
    difficulty_level := some (lit "intermediate")
    estimated_duration := some (lit "2 weeks")
    key_topics := some [query]
    prerequisites := some []
    recommendations :=
      some [lit "Start with fundamentals", lit "Practice regularly",
        lit "Review materials daily"] }

/-- Embedding of `StudentStudyPlannerAgent._analyze_study_goal`. The
`parsed` argument abstracts the JSON extraction plus `json.loads` applied
to the AI response: `none` models any exception there, which also covers
a failed AI call (whose fallback text is not valid JSON). -/
def analyze_study_goal (query : Str) (parsed : Option Analysis) : Analysis :=
  match parsed with
  | some a => a
  | none => fallback_analysis query

/-- A task dict of `StudentStudyPlannerAgent._create_study_plan`
(deadlines modelled as integer seconds from `now`). -/
structure StudyTask where
  title : Str
  description : Str
  type : Str
  estimated_hours : Nat
  deadline : Int
  status : Str
  priority : Str
deriving DecidableEq

/-- A phase (week) dict of `StudentStudyPlannerAgent._create_study_plan`. -/
structure Phase where
  name : Str
  order : Nat
  duration : Str
  start_date : Int
  end_date : Int
  tasks : List StudyTask
deriving DecidableEq

/-- The study-plan dict of `StudentStudyPlannerAgent._create_study_plan`. -/
structure StudyPlan where
  goal : Str
  phases : List Phase
  total_duration : Str
  key_topics : List Str
  difficulty : Str
  created_at : Int
deriving DecidableEq

/-- Decimal rendering of an integer (embedding of Python string
formatting of an int). -/
def intToStr (i : Int) : Str :=
  if i < 0 then '-' :: Nat.toDigits 10 i.natAbs
  else Nat.toDigits 10 i.toNat

/-- One daily study task: priority "high" on days 0-2, "medium" on days
3-6, as in the source's `"high" if day < 3 else "medium"`. -/
def mk_daily_task (goal : Str) (now : Int) (week day : Nat) : StudyTask :=
  { title := lit "Day " ++ Nat.toDigits 10 (day + 1) ++ lit ": Study Session"
    description := lit "Focus on " ++ goal
    type := lit "study"
    estimated_hours := 2
    deadline := now + (7 * week + day) * 86400
    status := lit "pending"
    priority := if day < 3 then lit "high" else lit "medium" }

/-- The end-of-week assessment task appended after the 7 daily tasks. -/
def mk_assessment_task (goal : Str) (now : Int) (week : Nat) : StudyTask :=
  { title := lit "Week " ++ Nat.toDigits 10 (week + 1) ++ lit " Assessment"
    description := lit "Test your understanding of " ++ goal
    type := lit "assessment"
    estimated_hours := 1
    deadline := now + 7 * (week + 1) * 86400
    status := lit "pending"
    priority := lit "high" }

/-- One phase (week) of the study plan: 7 daily tasks plus one
assessment task. -/
def mk_phase (goal : Str) (now : Int) (week : Nat) : Phase :=
  { name := lit "Week " ++ Nat.toDigits 10 (week + 1)
    order := week
    duration := lit "1 week"
    start_date := now + 7 * week * 86400
    end_date := now + 7 * (week + 1) * 86400
    tasks := (List.range 7).map (mk_daily_task goal now week) ++
      [mk_assessment_task goal now week] }

/-- Embedding of `StudentStudyPlannerAgent._create_study_plan`; `none`
models the uncaught `ValueError`/`IndexError` when the duration string
does not start with an integer token. -/
def create_study_plan (goal : Str) (now : Int) (analysis : Analysis) :
    Option StudyPlan :=
  match parse_duration_weeks ((analysis.estimated_duration).getD (lit "2")) with
  | none => none
  | some d =>
      some { goal := goal
             phases := (List.range d.toNat).map (mk_phase goal now)
             total_duration := intToStr d ++ lit " weeks"
             key_topics := (analysis.key_topics).getD []
             difficulty := (analysis.difficulty_level).getD (lit "intermediate")
             created_at := now }

/-- C1: for every analyzed duration that parses to N weeks, the plan has
exactly N phases; every phase has exactly 8 tasks whose priorities are
high on days 0-2, medium on days 3-6, and high for the final assessment;
the first 7 tasks are study tasks and the last is the assessment. -/
theorem create_study_plan_shape (goal : Str) (now : Int) (analysis : Analysis)
    (n : Int)
    (h : parse_duration_weeks
        ((analysis.estimated_duration).getD (lit "2")) = some n) :
    ∃ plan, create_study_plan goal now analysis = some plan ∧
      plan.phases.length = n.toNat ∧
      ∀ phase ∈ plan.phases,
        phase.tasks.length = 8 ∧
        phase.tasks.map (fun t => t.priority) =
          [lit "high", lit "high", lit "high", lit "medium", lit "medium",
           lit "medium", lit "medium", lit "high"] ∧
        phase.tasks.map (fun t => t.type) =
          [lit "study", lit "study", lit "study", lit "study", lit "study",
           lit "study", lit "study", lit "assessment"] := by
  simp only [create_study_plan, h]
  refine ⟨_, rfl, ?_, ?_⟩
  · simp
  · intro phase hp
    simp only [List.mem_map, List.mem_range] at hp
    obtain ⟨w, _, rfl⟩ := hp
    refine ⟨by simp [mk_phase], ?_, ?_⟩ <;>
      simp only [mk_phase, List.map_append, List.map_map] <;> rfl

/-- An analysis dict whose estimated duration is "3 weeks". -/
def three_week_analysis : Analysis :=
  { goal_type := none, difficulty_level := none,
    estimated_duration := some (lit "3 weeks"), key_topics := none,
    prerequisites := none, recommendations := none }

/-- C1 witness: an analyzed duration of "3 weeks" yields a 3-phase plan
of the specified shape. -/
theorem create_study_plan_shape_witness :
    parse_duration_weeks
        ((three_week_analysis.estimated_duration).getD (lit "2")) = some 3 ∧
    ∃ plan, create_study_plan (lit "prepare for exams") 0 three_week_analysis =
        some plan ∧
      plan.phases.length = (3 : Int).toNat ∧
      ∀ phase ∈ plan.phases,
        phase.tasks.length = 8 ∧
        phase.tasks.map (fun t => t.priority) =
          [lit "high", lit "high", lit "high", lit "medium", lit "medium",
           lit "medium", lit "medium", lit "high"] ∧
        phase.tasks.map (fun t => t.type) =
          [lit "study", lit "study", lit "study", lit "study", lit "study",
           lit "study", lit "study", lit "assessment"] :=
  ⟨by decide,
   create_study_plan_shape (lit "prepare for exams") 0 three_week_analysis 3
     (by decide)⟩

/-- C6 (amended): only a failure of the whole-analysis JSON parse (or a
failed AI call, whose fallback text equally fails that parse) falls back
to the fixed "2 weeks" analysis, which yields a 2-phase plan with no
error propagated; when the analysis parses but its estimated_duration
string does not start with an integer token, the duration parse raises
out of the plan builder and no plan is produced at all. -/
theorem study_plan_duration_fallback (query goal : Str) (now : Int) :
    analyze_study_goal query none = fallback_analysis query ∧
    (fallback_analysis query).estimated_duration = some (lit "2 weeks") ∧
    parse_duration_weeks (lit "2 weeks") = some 2 ∧
    (∃ plan,
      create_study_plan goal now (analyze_study_goal query none) = some plan ∧
      plan.phases.length = 2 ∧
      plan.total_duration = lit "2 weeks") ∧
    (∀ analysis : Analysis,
      parse_duration_weeks ((analysis.estimated_duration).getD (lit "2")) =
          none →
      create_study_plan goal now analysis = none) := by
  have hp : parse_duration_weeks (lit "2 weeks") = some 2 := by decide
  refine ⟨rfl, rfl, hp, ?_, ?_⟩
  · simp only [analyze_study_goal, create_study_plan, fallback_analysis,
      Option.getD, hp]
    refine ⟨_, rfl, by simp, ?_⟩
    show intToStr 2 ++ lit " weeks" = lit "2 weeks"
    decide
  · intro analysis h
    simp [create_study_plan, h]

/-- C6 witness: an analysis whose duration string is "two weeks" has no
leading integer token, and the plan builder produces no plan for it. -/
theorem study_plan_duration_fallback_witness :
    parse_duration_weeks
        ((some (lit "two weeks") : Option Str).getD (lit "2")) = none ∧
    create_study_plan (lit "learn algebra") 0
      { goal_type := none, difficulty_level := none,
        estimated_duration := some (lit "two weeks"), key_topics := none,
        prerequisites := none, recommendations := none } = none :=
  ⟨by decide,
   (study_plan_duration_fallback (lit "learn algebra") (lit "learn algebra")
       0).2.2.2.2
     { goal_type := none, difficulty_level := none,
       estimated_duration := some (lit "two weeks"), key_topics := none,
       prerequisites := none, recommendations := none }
     (by decide)⟩

/-- C6 counterexample: the AI analysis parses (so no fallback fires) but
its estimated_duration "two weeks" defeats the integer parse, and no
2-phase plan — no plan at all — is produced; the failure leaves the plan
builder as an error instead of falling back to 2 weeks. -/
theorem study_plan_duration_c6_counterexample :
    parse_duration_weeks (lit "two weeks") = none ∧
    analyze_study_goal (lit "learn algebra")
        (some { goal_type := none, difficulty_level := none,
                estimated_duration := some (lit "two weeks"),
                key_topics := none, prerequisites := none,
                recommendations := none }) ≠
      fallback_analysis (lit "learn algebra") ∧
    create_study_plan (lit "learn algebra") 0
      (analyze_study_goal (lit "learn algebra")
        (some { goal_type := none, difficulty_level := none,
                estimated_duration := some (lit "two weeks"),
                key_topics := none, prerequisites := none,
                recommendations := none })) = none := by
  refine ⟨by decide, by decide, by decide⟩

/-- An assignment record as read by
`StudentAssignmentManagerAgent._list_assignments`; keys may be absent. -/
structure Assignment where
  title : Str
  dueDate : Option Int
  status : Option Str
  priority : Option Str
deriving DecidableEq

/-- Embedding of the priority-rank lookup
`{"high": 0, "medium": 1, "low": 2}.get(x.get("priority", "medium"), 1)`. -/
def priority_rank (p : Option Str) : Nat :=
  let s := p.getD (lit "medium")
  if s = lit "high" then 0
  else if s = lit "medium" then 1
  else if s = lit "low" then 2
  else 1

/-- Embedding of `x.get("dueDate", datetime.now().isoformat())`: a
missing due date defaults to the current time. -/
def due_or_now (now : Int) (a : Assignment) : Int :=
  (a.dueDate).getD now

/-- Embedding of the pending filter `a.get("status") == "pending"`. -/
def is_pending (a : Assignment) : Bool :=
  a.status == some (lit "pending")

def pending_assignments (assignments : List Assignment) : List Assignment :=
  assignments.filter is_pending

/-- Embedding of the overdue filter: pending assignments whose due
timestamp is before the current time. -/
def overdue_assignments (now : Int) (assignments : List Assignment) :
    List Assignment :=
  (pending_assignments assignments).filter (fun a => due_or_now now a < now)

/-- The sort key order of `_list_assignments`: lexicographic on
(due timestamp, priority rank). -/
def assignment_le (now : Int) (a b : Assignment) : Bool :=
  decide (due_or_now now a < due_or_now now b ∨
    (due_or_now now a = due_or_now now b ∧
      priority_rank a.priority ≤ priority_rank b.priority))

/-- Embedding of `sorted(pending, key=...)` in `_list_assignments`
(Python's sort is stable, as is `List.mergeSort`). -/
def prioritized_assignments (now : Int) (assignments : List Assignment) :
    List Assignment :=
  (pending_assignments assignments).mergeSort (assignment_le now)

/-- C5: the prioritized list is a permutation of the pending assignments
sorted by (due ascending, priority rank ascending, high<medium<low,
missing priority = medium); overdue membership is exactly pending with a
past due timestamp and does not affect the sort; and for pending items
with due dates [t+1, t+3, t-1] (t = 0) the sorted order is
[t-1, t+1, t+3]. -/
theorem list_assignments_spec (now : Int) (assignments : List Assignment) :
    (prioritized_assignments now assignments).Perm
      (pending_assignments assignments) ∧
    List.Pairwise
      (fun a b => due_or_now now a < due_or_now now b ∨
        (due_or_now now a = due_or_now now b ∧
          priority_rank a.priority ≤ priority_rank b.priority))
      (prioritized_assignments now assignments) ∧
    (∀ a, a ∈ overdue_assignments now assignments ↔
      a ∈ assignments ∧ a.status = some (lit "pending") ∧
        (a.dueDate).getD now < now) ∧
    prioritized_assignments 0
      [{ title := lit "a1", dueDate := some 1,
         status := some (lit "pending"), priority := some (lit "medium") },
       { title := lit "a2", dueDate := some 3,
         status := some (lit "pending"), priority := some (lit "high") },
       { title := lit "a3", dueDate := some (-1),
         status := some (lit "pending"), priority := some (lit "high") }] =
      [{ title := lit "a3", dueDate := some (-1),
         status := some (lit "pending"), priority := some (lit "high") },
       { title := lit "a1", dueDate := some 1,
         status := some (lit "pending"), priority := some (lit "medium") },
       { title := lit "a2", dueDate := some 3,
         status := some (lit "pending"), priority := some (lit "high") }] := by
  refine ⟨List.mergeSort_perm _ _, ?_, ?_, ?_⟩
  · have tr : ∀ a b c : Assignment, assignment_le now a b = true →
        assignment_le now b c = true → assignment_le now a c = true := by
      intro a b c hab hbc
      simp only [assignment_le, decide_eq_true_eq] at *
      omega
    have tot : ∀ a b : Assignment,
        (assignment_le now a b || assignment_le now b a) = true := by
      intro a b
      simp only [assignment_le, Bool.or_eq_true, decide_eq_true_eq]
      omega
    have hs := List.sorted_mergeSort tr tot (pending_assignments assignments)
    exact hs.imp (fun h => by
      simpa only [assignment_le, decide_eq_true_eq] using h)
  · intro a
    simp [overdue_assignments, pending_assignments, is_pending,
      List.mem_filter, due_or_now, and_assoc]
    tauto
  · simp [prioritized_assignments, pending_assignments, is_pending,
      List.mergeSort, assignment_le, due_or_now, priority_rank, lit]

end Campus

namespace Campus

structure Turn where
  role : Str
  content : Str
  timestamp : Int
deriving DecidableEq

/-- Embedding of Python slicing `l[-n:]`: the last `n` elements. -/
def lastN (n : Nat) (l : List α) : List α := l.drop (l.length - n)

theorem lastN_length_le (n : Nat) (l : List α) : (lastN n l).length ≤ n := by
  simp [lastN]
  omega

theorem lastN_suffix (n : Nat) (l : List α) : lastN n l <:+ l :=
  List.drop_suffix _ _

/-- Embedding of `IntelligentChatbot._get_conversation_history`:
`stored = none` models both a missing conversation record and the
swallowed database exception, each returning `[]`; a found record yields
its last 10 messages. -/
def get_conversation_history (memoryEnabled : Bool)
    (stored : Option (List Turn)) : List Turn :=
  if memoryEnabled then
    match stored with
    | some msgs => lastN 10 msgs
    | none => []
  else []

/-- The three completion providers of
`IntelligentChatbot._generate_conversational_response`. -/
inductive AiType where
  | openai
  | gemini
  | anthropic
deriving DecidableEq

/-- The history slice each provider branch sends: `history[-6:]` for
OpenAI and Anthropic, `history[-4:]` for Gemini. -/
def history_sent (t : AiType) (history : List Turn) : List Turn :=
  match t with
  | AiType.openai => lastN 6 history
  | AiType.gemini => lastN 4 history
  | AiType.anthropic => lastN 6 history

/-- C7: every history read returns at most the 10 most recent stored
turns, as a suffix of storage (so in chronological order); every
completion call sends at most 6 turns, a suffix of the read history and
hence of storage. -/
theorem conversation_window_bounds (t : AiType) (memoryEnabled : Bool)
    (stored history : List Turn) :
    (get_conversation_history memoryEnabled (some stored)).length ≤ 10 ∧
    get_conversation_history memoryEnabled (some stored) <:+ stored ∧
    (history_sent t history).length ≤ 6 ∧
    history_sent t history <:+ history ∧
    history_sent t (get_conversation_history memoryEnabled (some stored)) <:+
      stored := by
  have hg : get_conversation_history memoryEnabled (some stored) <:+ stored := by
    cases memoryEnabled <;>
      simp [get_conversation_history, lastN_suffix, List.nil_suffix]
  have hlen : (get_conversation_history memoryEnabled (some stored)).length ≤ 10 := by
    cases memoryEnabled <;> simp [get_conversation_history, lastN_length_le]
  have hs : ∀ h : List Turn, (history_sent t h).length ≤ 6 ∧
      history_sent t h <:+ h := by
    intro h
    cases t <;> constructor <;>
      first
        | exact lastN_suffix _ _
        | simpa [history_sent] using lastN_length_le _ h
        | exact le_trans (lastN_length_le _ h) (by norm_num)
  exact ⟨hlen, hg, (hs history).1, (hs history).2,
    ((hs _).2).trans hg⟩

end Campus

namespace Campus

/-- Fuel-driven core of the Python `str.replace` embedding: scans left to
right, replacing non-overlapping occurrences of `pat`.  The fuel is the
length of the scanned text, which suffices since every step consumes at
least one character (all patterns used by the source are non-empty). -/
def replaceSubAux (pat repl : Str) : Nat → Str → Str
  | _, [] => []
  | 0, s => s
  | fuel + 1, c :: rest =>
      if pat.isPrefixOf (c :: rest) && !pat.isEmpty then
        repl ++ replaceSubAux pat repl fuel ((c :: rest).drop pat.length)
      else c :: replaceSubAux pat repl fuel rest

/-- Embedding of Python `s.replace(pat, repl)` for non-empty `pat`. -/
def replaceSub (pat repl s : Str) : Str :=
  replaceSubAux pat repl s.length s

/-- Embedding of the markup-stripping chain of
`VoiceAssistant._format_for_voice`, in source order:
`**`, `##`, `###`, `•`, `-`. -/
def strip_for_voice (text : Str) : Str :=
  replaceSub (lit "-") []
    (replaceSub (lit "•") []
      (replaceSub (lit "###") []
        (replaceSub (lit "##") []
          (replaceSub (lit "**") [] text))))

/-- The continuation prompt appended when a voice reply is truncated. -/
def voice_more : Str := lit "... Would you like more details?"

/-- Embedding of `VoiceAssistant._format_for_voice`. -/
def format_for_voice (text : Str) : Str :=
  let t := strip_for_voice text
  if 500 < t.length then t.take 500 ++ voice_more else t

/-- C8: the voice reply is the markup-stripped text, returned unchanged
when at most 500 characters, else its first 500 characters followed by
the continuation prompt. -/
theorem format_for_voice_spec (text : Str) :
    ((strip_for_voice text).length ≤ 500 →
      format_for_voice text = strip_for_voice text) ∧
    (500 < (strip_for_voice text).length →
      format_for_voice text =
        (strip_for_voice text).take 500 ++ voice_more ∧
      (format_for_voice text).length = 500 + voice_more.length) := by
  constructor
  · intro h
    simp only [format_for_voice]
    rw [if_neg (by omega)]
  · intro h
    have he : format_for_voice text =
        (strip_for_voice text).take 500 ++ voice_more := by
      simp only [format_for_voice]
      rw [if_pos h]
    refine ⟨he, ?_⟩
    rw [he]
    simp [List.length_take]
    omega

/-- C8 witness: a short message has its markdown markers stripped and is
returned without truncation or continuation prompt. -/
theorem format_for_voice_spec_witness :
    format_for_voice (lit "**Hi** there") =
      strip_for_voice (lit "**Hi** there") ∧
    strip_for_voice (lit "**Hi** there") = lit "Hi there" :=
  ⟨(format_for_voice_spec (lit "**Hi** there")).1 (by decide), by decide⟩

end Campus

namespace Campus

/-- The outcome of every awaited step of
`IntelligentChatbot.process_message` after the conversation id is
resolved; `Except.error` models a Python exception raised by that step
(the collaborators can raise even where the happy path is pure). -/
structure ChatbotSteps (γ : Type) where
  history : Except Str (List Turn)
  gather_context : Except Str γ
  detect_intent : Except Str Bool
  route : Except Str RouteResult
  generate : Except Str Str
  save_history : Except Str Unit

/-- The reply dict of `IntelligentChatbot.process_message`; the failure
branch omits the `context` and `actions_taken` keys (`none`). -/
structure ChatEnvelope (γ : Type) where
  success : Bool
  response : Str
  conversation_id : Option Str
  context : Option γ
  actions_taken : Option (List ActionEntry)

/-- The fixed apology of the router's exception handler. -/
def chat_error_response : Str :=
  lit "I apologize, but I encountered an error. Please try again."

/-- Conversation-id resolution: the supplied id, else
`f"{user_id}_{int(datetime.now().timestamp())}"`. -/
def resolve_conv_id (user_id : Str) (conversation_id : Option Str)
    (nowTs : Int) : Str :=
  conversation_id.getD (user_id ++ lit "_" ++ intToStr nowTs)

/-- The uniform failure envelope of the router's exception handler. -/
def fail_envelope (γ : Type) (conv_id : Str) : ChatEnvelope γ :=
  { success := false
    response := chat_error_response
    conversation_id := some conv_id
    context := none
    actions_taken := none }

/-- Embedding of `IntelligentChatbot.process_message`: the steps run in
source order inside one try block; the first raising step aborts to the
exception handler, which returns the fixed failure envelope. -/
def process_message (user_id : Str) (conversation_id : Option Str)
    (nowTs : Int) (steps : ChatbotSteps γ) : ChatEnvelope γ :=
  let conv_id := resolve_conv_id user_id conversation_id nowTs
  match (do
      let _hist ← steps.history
      let ctx ← steps.gather_context
      let action ← steps.detect_intent
      let pair ←
        if action then do
          let rd ← steps.route
          Except.ok ((rd.response).getD (lit "Action completed!"),
            (rd.actions_performed).getD [])
        else do
          let t ← steps.generate
          Except.ok (t, ([] : List ActionEntry))
      let _ ← steps.save_history
      Except.ok (ctx, pair) :
      Except Str (γ × (Str × List ActionEntry))) with
  | Except.ok (ctx, rtext, actions) =>
      { success := true
        response := rtext
        conversation_id := some conv_id
        context := some ctx
        actions_taken := some actions }
  | Except.error _ => fail_envelope γ conv_id

/-- Does some step that actually executes raise?  Follows the source's
control flow: the responder dispatch only runs on action intent, the
conversational generation only otherwise. -/
def executed_step_fails (steps : ChatbotSteps γ) : Bool :=
  !steps.history.isOk || !steps.gather_context.isOk ||
    (match steps.detect_intent with
     | Except.error _ => true
     | Except.ok true => !steps.route.isOk || !steps.save_history.isOk
     | Except.ok false => !steps.generate.isOk || !steps.save_history.isOk)

/-- C4: the router returns the fixed failure envelope exactly when some
executed step raises; that envelope has success false, the generic
apology, and the already-resolved conversation id — never a partial
shape. -/
theorem process_message_failure_boundary (γ : Type) (user_id : Str)
    (conversation_id : Option Str) (nowTs : Int) (steps : ChatbotSteps γ) :
    (process_message user_id conversation_id nowTs steps =
        fail_envelope γ (resolve_conv_id user_id conversation_id nowTs) ↔
      executed_step_fails steps = true) ∧
    (fail_envelope γ (resolve_conv_id user_id conversation_id nowTs)).success
        = false ∧
    (fail_envelope γ (resolve_conv_id user_id conversation_id nowTs)).response
        = chat_error_response ∧
    (fail_envelope γ (resolve_conv_id user_id conversation_id nowTs)).conversation_id
        = some (resolve_conv_id user_id conversation_id nowTs) := by
  refine ⟨?_, rfl, rfl, rfl⟩
  obtain ⟨h1, h2, h3, h4, h5, h6⟩ := steps
  cases h1 <;> cases h2 <;> cases h3 <;> cases h4 <;> cases h5 <;> cases h6 <;>
    simp_all [process_message, executed_step_fails, fail_envelope,
      Except.isOk, Except.toBool, ChatEnvelope.mk.injEq, bind, Except.bind] <;>
    rename_i b _ _ _ <;> cases b <;>
    simp_all [process_message, executed_step_fails, fail_envelope,
      Except.isOk, Except.toBool, ChatEnvelope.mk.injEq, bind, Except.bind]

end Campus

namespace Campus

/-- The agent response dict built by `BaseAgent.format_response`;
`analysis` and `data` payload shapes vary per agent, so they are type
parameters. -/
structure AgentEnvelope (α δ : Type) where
  success : Bool
  agent_name : Str
  response : Str
  actions_performed : Option (List ActionEntry)
  analysis : Option α
  data : Option δ
  recommendations : Option (List Str)

/-- Embedding of `BaseAgent.format_response`: success is always True and
`actions or []` never leaves the actions list null. -/
def format_response (agent_name response : Str)
    (actions : Option (List ActionEntry)) (analysis : Option α)
    (data : Option δ) (recommendations : Option (List Str)) :
    AgentEnvelope α δ :=
  { success := true
    agent_name := agent_name
    response := response
    actions_performed := some (actions.getD [])
    analysis := analysis
    data := data
    recommendations := recommendations }

/-- The four agents of the repository. -/
inductive AgentKind where
  | studyPlanner
  | assignmentManager
  | reportGenerator
  | helpdeskManager
deriving DecidableEq

/-- The `agent_name` each agent passes to `BaseAgent.__init__`. -/
def agent_display_name : AgentKind → Str
  | AgentKind.studyPlanner => lit "Study Planner Agent"
  | AgentKind.assignmentManager => lit "Assignment Manager Agent"
  | AgentKind.reportGenerator => lit "Report Generator Agent"
  | AgentKind.helpdeskManager => lit "Helpdesk Manager Agent"

/-- Each agent's `get_fallback_response` (only the study planner
interpolates the query). -/
def get_fallback_response (k : AgentKind) (query : Str) : Str :=
  match k with
  | AgentKind.studyPlanner =>
      lit "📚 I\x27ve created a basic study plan for: " ++ query ++
        lit "\n\n**Plan Overview:**\n• Duration: 2 weeks\n• Daily study sessions: 2 hours\n• Weekly assessments\n• Recommended materials will be provided\n\nI\x27ll help you stay on track with your studies! Check your dashboard for the complete plan."
  | AgentKind.assignmentManager =>
      lit "📝 **Assignment Manager**\n\nI\x27m here to help you manage your assignments! I can:\n• Track all your assignments and deadlines\n• Help you prioritize your work\n• Generate content and outlines\n• Provide study tips and resources\n\nWhat do you need help with today?"
  | AgentKind.reportGenerator =>
      lit "📊 **Report Generator**\n\nI can generate comprehensive reports including:\n• Student Performance Analytics\n• Engagement Metrics\n• Course Analytics\n• System Overview\n\nWhat type of report would you like to generate?"
  | AgentKind.helpdeskManager =>
      lit "🎫 **Helpdesk Manager**\n\nI\x27m here to help you manage support tickets efficiently!\n\nFeatures:\n• Intelligent ticket categorization\n• AI-powered solution suggestions\n• Priority assignment\n• Response template generation\n\nHow can I assist you today?"

/-- The envelope every agent's `process` builds in its `except` branch:
`format_response` over the fallback text with a single error action. -/
def process_error_envelope (α δ : Type) (k : AgentKind) (query err : Str) :
    AgentEnvelope α δ :=
  format_response (agent_display_name k) (get_fallback_response k query)
    (some [{ type := lit "error", success := false, message := some err,
             plan_id := none, count := none }])
    none none none

/-- C9: every `format_response` envelope has success True, the agent's
non-empty name, and a present (possibly empty, never null) actions list;
the exception-recovery envelope of every agent's `process` also has
success True, failure showing only as one actions entry of type "error"
whose own success field is False. -/
theorem format_response_envelope (α δ : Type) (k : AgentKind)
    (query err response : Str) (actions : Option (List ActionEntry))
    (analysis : Option α) (data : Option δ)
    (recommendations : Option (List Str)) :
    (format_response (agent_display_name k) response actions analysis data
        recommendations).success = true ∧
    (format_response (agent_display_name k) response actions analysis data
        recommendations).agent_name = agent_display_name k ∧
    agent_display_name k ≠ [] ∧
    (format_response (agent_display_name k) response actions analysis data
        recommendations).actions_performed = some (actions.getD []) ∧
    (process_error_envelope α δ k query err).success = true ∧
    (process_error_envelope α δ k query err).actions_performed =
      some [{ type := lit "error", success := false, message := some err,
              plan_id := none, count := none }] := by
  refine ⟨rfl, rfl, ?_, rfl, rfl, rfl⟩
  cases k <;> simp [agent_display_name, lit]

/-- The reply dict of `VoiceAssistant.process_voice_query`; the failure
branch omits the `actions_taken` key. -/
structure VoiceEnvelope where
  success : Bool
  response : Str
  actions_taken : Option (List ActionEntry)
  voice_enabled : Bool

/-- The fixed failure text of the voice assistant's exception handler. -/
def voice_failure_text : Str :=
  lit "I\x27m sorry, I couldn\x27t process your voice request. Please try again."

/-- Embedding of `VoiceAssistant.process_voice_query`: the argument is
the outcome of the wrapped chatbot call, `Except.error` modelling an
exception escaping the voice path's try block. -/
def process_voice_query (γ : Type) (chat : Except Str (ChatEnvelope γ)) :
    VoiceEnvelope :=
  match chat with
  | Except.ok r =>
      { success := true
        response := format_for_voice r.response
        actions_taken := some ((r.actions_taken).getD [])
        voice_enabled := true }
  | Except.error _ =>
      { success := false
        response := voice_failure_text
        actions_taken := none
        voice_enabled := true }

/-- C10: whenever the chatbot call returns an envelope — even the
chatbot's own failure envelope — the voice query succeeds; it fails only
when an exception escapes the voice path itself. -/
theorem voice_query_success_boundary (γ : Type) (r : ChatEnvelope γ)
    (e cid : Str) (user_id : Str) (conversation_id : Option Str)
    (nowTs : Int) (steps : ChatbotSteps γ) :
    (process_voice_query γ (Except.ok r)).success = true ∧
    (process_voice_query γ (Except.ok r)).response =
      format_for_voice r.response ∧
    (process_voice_query γ (Except.ok (fail_envelope γ cid))).success = true ∧
    (process_voice_query γ
        (Except.ok (process_message user_id conversation_id nowTs
          steps))).success = true ∧
    (process_voice_query γ (Except.error e)).success = false ∧
    (process_voice_query γ (Except.error e)).response = voice_failure_text := by
  refine ⟨rfl, rfl, rfl, ?_, rfl, rfl⟩
  simp only [process_message]
  cases hm : (do
      let _hist ← steps.history
      let ctx ← steps.gather_context
      let action ← steps.detect_intent
      let pair ←
        if action then do
          let rd ← steps.route
          Except.ok ((rd.response).getD (lit "Action completed!"),
            (rd.actions_performed).getD [])
        else do
          let t ← steps.generate
          Except.ok (t, ([] : List ActionEntry))
      let _ ← steps.save_history
      Except.ok (ctx, pair) :
      Except Str (γ × (Str × List ActionEntry))) <;>
    simp [process_voice_query, fail_envelope, hm]

end Campus
